import Mathlib

/-!
Verification of the exam-score prediction service (`src/app.py`).

The embedding models real-number arithmetic with `ℚ`.  Observations, the
prediction engine (`predict`), the validation boundary (`validate_entry`,
`validate_predict`) and the observation store (`add_entry`, `fetch_entries`)
are translated from `src/app.py`.  The one external numeric routine the code
calls, `np.linalg.lstsq`, has no source in the repository; it is modelled
from the specification's description of the solver (minimum-norm least
squares via the normal equations).
-/

set_option maxRecDepth 20000

/-! ## Basic numerics -/

/-- Dot product of two rational vectors (componentwise product, summed). -/
def dot (u v : List ℚ) : ℚ := (List.zipWith (fun a b => a * b) u v).sum

/-- Arithmetic mean of a list of rationals, mirroring `np.mean`. -/
def meanQ (l : List ℚ) : ℚ := l.sum / (l.length : ℚ)

/-- Floor of a rational as an integer, computed with integer floor division. -/
def ratFloorZ (q : ℚ) : ℤ := q.num.fdiv q.den

/-- Round-half-to-even on rationals, mirroring Python's built-in `round`
applied to one significand position. -/
def roundHalfEven (q : ℚ) : ℤ :=
  let f := ratFloorZ q
  let r := q - (f : ℚ)
  if r < 1/2 then f
  else if 1/2 < r then f + 1
  else if f % 2 = 0 then f else f + 1

/-- Python's `round(x, 2)`. -/
def round2 (q : ℚ) : ℚ := (roundHalfEven (q * 100) : ℚ) / 100

/-- Python's `round(x, 4)`. -/
def round4 (q : ℚ) : ℚ := (roundHalfEven (q * 10000) : ℚ) / 10000

/-! ## Data model -/

/-- One stored observation row (`exam_entries` columns apart from id and
timestamp). -/
structure Entry where
  avg_glucose : ℚ
  glucose_sd : ℚ
  difficulty : ℚ
  score : ℚ
deriving DecidableEq, Repr

/-- The validated predictor tuple handed to the regression (the `parsed`
dict of the `/api/predict` route). -/
structure PredictIn where
  avg_glucose : ℚ
  glucose_sd : ℚ
  difficulty : ℚ
deriving DecidableEq, Repr

/-- The `coefficients` object of the response model. -/
structure Coefficients where
  intercept : ℚ
  avg_glucose : ℚ
  glucose_sd : ℚ
  difficulty : ℚ
deriving DecidableEq, Repr

/-- The `model` object of the prediction response. -/
structure Model where
  type : String
  coefficients : Coefficients
  n_training_rows : ℕ
  r2 : Option ℚ
deriving DecidableEq, Repr

/-- The body of a successful `/api/predict` response. -/
structure PredictionResult where
  predicted_score : ℚ
  model : Model
  notes : List String
deriving DecidableEq, Repr

/-! ## Least-squares solver

`np.linalg.lstsq` has no source in this repository; the definitions below
are modelled from the specification: solve the normal equations, returning
the minimum-norm least-squares solution, total even for rank-deficient
design matrices. -/

/-- Column `j` of a matrix stored as a list of rows. -/
def colAt (M : List (List ℚ)) (j : ℕ) : List ℚ := M.map (fun r => r.getD j 0)

/-- Transpose of a matrix with four columns. -/
def transpose4 (M : List (List ℚ)) : List (List ℚ) :=
  [colAt M 0, colAt M 1, colAt M 2, colAt M 3]

/-- Matrix-vector product. -/
def matVec (M : List (List ℚ)) (v : List ℚ) : List ℚ := M.map (fun r => dot r v)

/-- Product of a matrix with a four-column matrix. -/
def matMul4 (M N : List (List ℚ)) : List (List ℚ) :=
  M.map (fun r => (transpose4 N).map (fun c => dot r c))

/-- One pass of Gaussian elimination over the leading `fuel` columns,
returning the nonzero rows of an echelon form with unit pivots. -/
def gaussStep : ℕ → List (List ℚ) → List (List ℚ)
  | 0, _ => []
  | fuel + 1, rows =>
    match rows.find? (fun r => decide (r.headD 0 ≠ 0)) with
    | none => (gaussStep fuel (rows.map List.tail)).map (fun r => 0 :: r)
    | some p =>
      let pn := p.map (fun a => a / p.headD 1)
      let rest := (rows.erase p).map
        (fun r => List.zipWith (fun a b => a - r.headD 0 * b) r pn)
      pn :: (gaussStep fuel (rest.map List.tail)).map (fun r => 0 :: r)

/-- Back-substitution step for one echelon row, with free unknowns left at
zero. -/
def backStep (ncols : ℕ) (x : List ℚ) (r : List ℚ) : List ℚ :=
  match r.findIdx? (fun a => decide (a ≠ 0)) with
  | none => x
  | some k =>
    if k < ncols then
      x.set k (r.getD ncols 0 -
        dot ((r.drop (k + 1)).take (ncols - (k + 1))) (x.drop (k + 1)))
    else x

/-- A particular solution of the linear system given by an augmented matrix
(each row `ncols` coefficients followed by the right-hand side); free
unknowns are set to zero. -/
def gaussSolve (ncols : ℕ) (rows : List (List ℚ)) : List ℚ :=
  (gaussStep ncols rows).reverse.foldl (backStep ncols) (List.replicate ncols 0)

/-- Modelled from the spec: `np.linalg.lstsq` (absent from the repository)
on an `n × 4` design matrix — the minimum-norm least-squares solution, via
the normal equations.  With `G = XᵀX` and `b = Xᵀy`, the minimum-norm
least-squares solution is `G·w` for any solution `w` of `G²w = b`; a
particular `w` is found by Gaussian elimination, so rank deficiency never
raises an error. -/
def lstsq (X : List (List ℚ)) (y : List ℚ) : List ℚ :=
  let Xt := transpose4 X
  let G := Xt.map (fun r => Xt.map (fun c => dot r c))
  let b := Xt.map (fun r => dot r y)
  let G2 := matMul4 G G
  let w := gaussSolve 4 (List.zipWith (fun r bi => r ++ [bi]) G2 b)
  matVec G w

/-! ## The prediction engine (`predict` route, lines 178-264) -/

/-- The design matrix of the regression: one row per observation, a leading
constant `1.0` column, then the three predictor fields. -/
def designMatrix (entries : List Entry) : List (List ℚ) :=
  entries.map (fun e => [1, e.avg_glucose, e.glucose_sd, e.difficulty])

/-- The target vector of the regression: the `score` column. -/
def targets (entries : List Entry) : List ℚ := entries.map (fun e => e.score)

/-- The fitted coefficient vector `coeffs` of the regression branch. -/
def fitCoeffs (entries : List Entry) : List ℚ :=
  lstsq (designMatrix entries) (targets entries)

/-- `y_pred = x.dot(coeffs)`. -/
def yPred (entries : List Entry) : List ℚ :=
  matVec (designMatrix entries) (fitCoeffs entries)

/-- `ss_res`: residual sum of squares over the training set. -/
def ssRes (entries : List Entry) : ℚ :=
  (List.zipWith (fun a b => (a - b) ^ 2) (targets entries) (yPred entries)).sum

/-- `ss_tot`: total sum of squares of the training scores around their
mean. -/
def ssTot (entries : List Entry) : ℚ :=
  ((targets entries).map (fun s => (s - meanQ (targets entries)) ^ 2)).sum

/-- The coefficient record read off a fitted coefficient vector, mirroring
`intercept, b_avg, b_sd, b_diff = coeffs.tolist()`. -/
def coeffsOf (c : List ℚ) : Coefficients :=
  ⟨c.getD 0 0, c.getD 1 0, c.getD 2 0, c.getD 3 0⟩

/-- The linear form `intercept + b_avg*avg_glucose + b_sd*glucose_sd +
b_diff*difficulty` evaluated at the new input. -/
def evalLinear (c : List ℚ) (inp : PredictIn) : ℚ :=
  c.getD 0 0 + c.getD 1 0 * inp.avg_glucose +
    c.getD 2 0 * inp.glucose_sd + c.getD 3 0 * inp.difficulty

/-- The `model` dict as initialised at the top of the route. -/
def baseModel (entries : List Entry) : Model :=
  { type := "multivariate_linear_regression"
    coefficients := ⟨0, 0, 0, 0⟩
    n_training_rows := entries.length
    r2 := none }

/-- Advisory emitted in the mean-fallback regime. -/
def noteInsufficient : String :=
  "Not enough data for regression (need at least 3 rows). Returning mean score of existing entries."

/-- Advisory emitted on an empty history. -/
def noteNoData : String :=
  "No data yet. Returning 0 as a placeholder prediction until entries exist."

/-- The prediction engine: the body of the `/api/predict` route after
validation, as a function of the parsed input and the history snapshot. -/
def predictCore (parsed : PredictIn) (entries : List Entry) : PredictionResult :=
  if entries.length < 3 then
    if entries ≠ [] then
      { predicted_score := round2 (meanQ (targets entries))
        model := baseModel entries
        notes := [noteInsufficient] }
    else
      { predicted_score := round2 0
        model := baseModel entries
        notes := [noteNoData] }
  else
    let coeffs := fitCoeffs entries
    let r2 : Option ℚ :=
      if ssTot entries > 0 then some (1 - ssRes entries / ssTot entries) else none
    { predicted_score := round2 (evalLinear coeffs parsed)
      model := { baseModel entries with
                   coefficients := coeffsOf coeffs
                   r2 := r2.map round4 }
      notes := [] }

/-- The predictor fields of one observation, as a row of the 3×3 matrix
whose regularity expresses linear independence of three observations'
predictor rows. -/
def predRow (e : Entry) : ℚ × ℚ × ℚ := (e.avg_glucose, e.glucose_sd, e.difficulty)

/-- Determinant of the 3×3 matrix with the given rows; it is nonzero
exactly when the three rows are linearly independent. -/
def det3 (u v w : ℚ × ℚ × ℚ) : ℚ :=
  u.1 * (v.2.1 * w.2.2 - v.2.2 * w.2.1) -
    u.2.1 * (v.1 * w.2.2 - v.2.2 * w.1) +
    u.2.2 * (v.1 * w.2.1 - v.2.1 * w.1)

/-! ## Validation boundary (`validate_entry`, `validate_predict`) -/

/-- Raw request payload of `/api/entries` after `parse_float`: each field is
`none` when missing or non-numeric, otherwise the parsed number. -/
structure RawEntryData where
  avg_glucose : Option ℚ
  glucose_sd : Option ℚ
  difficulty : Option ℚ
  score : Option ℚ
deriving DecidableEq, Repr

/-- Raw request payload of `/api/predict` after `parse_float`. -/
structure RawPredictData where
  avg_glucose : Option ℚ
  glucose_sd : Option ℚ
  difficulty : Option ℚ
deriving DecidableEq, Repr

/-- One field's validation block: a "must be a number" error when the field
is absent, a range error when `bad` holds, otherwise the parsed value. -/
def checkRange (name msgNum msgRange : String) (bad : ℚ → Prop)
    [DecidablePred bad] (v : Option ℚ) :
    List (String × String) × List (String × ℚ) :=
  match v with
  | none => ([(name, msgNum)], [])
  | some x => if bad x then ([(name, msgRange)], []) else ([], [(name, x)])

/-- The field names a payload supplies with an out-of-range value (absent or
non-numeric fields are not range violations). -/
def violationsOf (name : String) (bad : ℚ → Prop) [DecidablePred bad]
    (v : Option ℚ) : List String :=
  match v with
  | none => []
  | some x => if bad x then [name] else []

/-- Validation of an observation payload (`validate_entry`): errors by field
and the parsed fields, accumulated in source order. -/
def validate_entry (d : RawEntryData) :
    List (String × String) × List (String × ℚ) :=
  let c1 := checkRange "avg_glucose" "Average glucose must be a number."
    "Average glucose must be > 0." (fun x => x ≤ 0) d.avg_glucose
  let c2 := checkRange "glucose_sd" "Glucose SD must be a number."
    "Glucose SD must be >= 0." (fun x => x < 0) d.glucose_sd
  let c3 := checkRange "difficulty" "Difficulty must be a number."
    "Difficulty must be between 1 and 10." (fun x => x < 1 ∨ 10 < x) d.difficulty
  let c4 := checkRange "score" "Score must be a number."
    "Score must be between 0 and 100." (fun x => x < 0 ∨ 100 < x) d.score
  (c1.1 ++ c2.1 ++ c3.1 ++ c4.1, c1.2 ++ c2.2 ++ c3.2 ++ c4.2)

/-- Validation of a predictor-input payload (`validate_predict`). -/
def validate_predict (d : RawPredictData) :
    List (String × String) × List (String × ℚ) :=
  let c1 := checkRange "avg_glucose" "Average glucose must be a number."
    "Average glucose must be > 0." (fun x => x ≤ 0) d.avg_glucose
  let c2 := checkRange "glucose_sd" "Glucose SD must be a number."
    "Glucose SD must be >= 0." (fun x => x < 0) d.glucose_sd
  let c3 := checkRange "difficulty" "Difficulty must be a number."
    "Difficulty must be between 1 and 10." (fun x => x < 1 ∨ 10 < x) d.difficulty
  (c1.1 ++ c2.1 ++ c3.1, c1.2 ++ c2.2 ++ c3.2)

/-- Range violations of an observation payload. -/
def entryRangeViolations (d : RawEntryData) : List String :=
  violationsOf "avg_glucose" (fun x => x ≤ 0) d.avg_glucose ++
  violationsOf "glucose_sd" (fun x => x < 0) d.glucose_sd ++
  violationsOf "difficulty" (fun x => x < 1 ∨ 10 < x) d.difficulty ++
  violationsOf "score" (fun x => x < 0 ∨ 100 < x) d.score

/-- Range violations of a predictor-input payload. -/
def predictRangeViolations (d : RawPredictData) : List String :=
  violationsOf "avg_glucose" (fun x => x ≤ 0) d.avg_glucose ++
  violationsOf "glucose_sd" (fun x => x < 0) d.glucose_sd ++
  violationsOf "difficulty" (fun x => x < 1 ∨ 10 < x) d.difficulty

/-! ## Observation store (`exam_entries` table) -/

/-- One row of the `exam_entries` table: autoincrement id, creation
timestamp (modelled as a natural number), and the observation fields. -/
structure StoredEntry where
  id : ℕ
  created_at : ℕ
  entry : Entry
deriving DecidableEq, Repr

/-- The table plus its autoincrement counter. -/
structure Store where
  next_id : ℕ
  rows : List StoredEntry
deriving DecidableEq, Repr

/-- The ordering of `SELECT * FROM exam_entries ORDER BY created_at ASC,
id ASC`: by creation time, ties broken by id. -/
def storedLE (a b : StoredEntry) : Prop :=
  a.created_at < b.created_at ∨ (a.created_at = b.created_at ∧ a.id ≤ b.id)

instance : DecidableRel storedLE := fun a b => by
  unfold storedLE
  infer_instance

/-- `fetch_entries`: the full table ordered by `(created_at, id)`. -/
def fetch_entries (st : Store) : List StoredEntry :=
  List.insertionSort storedLE st.rows

/-- Reading the parsed observation out of the validated field map, as in
`parsed["avg_glucose"]` etc. of `add_entry`. -/
def parsedEntry (p : List (String × ℚ)) : Entry :=
  { avg_glucose := (p.lookup "avg_glucose").getD 0
    glucose_sd := (p.lookup "glucose_sd").getD 0
    difficulty := (p.lookup "difficulty").getD 0
    score := (p.lookup "score").getD 0 }

/-- Reading the parsed predictor input out of the validated field map, as in
the `predict` route. -/
def parsedInput (p : List (String × ℚ)) : PredictIn :=
  { avg_glucose := (p.lookup "avg_glucose").getD 0
    glucose_sd := (p.lookup "glucose_sd").getD 0
    difficulty := (p.lookup "difficulty").getD 0 }

/-- The `/api/entries` POST route: validate, and on success insert a row
with the next id and the current timestamp, returning the stored row. -/
def add_entry (st : Store) (t : ℕ) (d : RawEntryData) :
    Store × Except (List (String × String)) StoredEntry :=
  if (validate_entry d).1 ≠ [] then (st, Except.error (validate_entry d).1)
  else
    (⟨st.next_id + 1,
        st.rows ++ [⟨st.next_id, t, parsedEntry (validate_entry d).2⟩]⟩,
     Except.ok ⟨st.next_id, t, parsedEntry (validate_entry d).2⟩)

/-- The observation fields of the ordered snapshot, as consumed by the
prediction engine. -/
def snapshotEntries (st : Store) : List Entry :=
  (fetch_entries st).map (fun s => s.entry)

/-- The `/api/predict` route: validate, then run the prediction engine on
the parsed input and the current snapshot. -/
def predict (st : Store) (d : RawPredictData) :
    Except (List (String × String)) PredictionResult :=
  if (validate_predict d).1 ≠ [] then Except.error (validate_predict d).1
  else Except.ok (predictCore (parsedInput (validate_predict d).2) (snapshotEntries st))

/-! ## Order properties of the snapshot ordering -/

instance : IsTotal StoredEntry storedLE :=
  ⟨fun a b => by
    unfold storedLE
    rcases Nat.lt_trichotomy a.created_at b.created_at with h | h | h
    · exact Or.inl (Or.inl h)
    · rcases Nat.le_total a.id b.id with h2 | h2
      · exact Or.inl (Or.inr ⟨h, h2⟩)
      · exact Or.inr (Or.inr ⟨h.symm, h2⟩)
    · exact Or.inr (Or.inl h)⟩

instance : IsTrans StoredEntry storedLE :=
  ⟨fun a b c hab hbc => by
    unfold storedLE at *
    rcases hab with h1 | ⟨h1, h1'⟩ <;> rcases hbc with h2 | ⟨h2, h2'⟩
    · exact Or.inl (h1.trans h2)
    · exact Or.inl (h2 ▸ h1)
    · exact Or.inl (h1 ▸ h2)
    · exact Or.inr ⟨h1.trans h2, h1'.trans h2'⟩⟩

/-! ## Unfolding lemmas for the prediction engine -/

/-- In every regime, `n_training_rows` is the history length. -/
theorem predictCore_n_training (inp : PredictIn) (entries : List Entry) :
    (predictCore inp entries).model.n_training_rows = entries.length := by
  unfold predictCore
  split
  · split <;> rfl
  · rfl

/-- The regression branch, explicitly. -/
theorem predictCore_of_three_le (inp : PredictIn) (entries : List Entry)
    (h : 3 ≤ entries.length) :
    predictCore inp entries =
      { predicted_score := round2 (evalLinear (fitCoeffs entries) inp)
        model :=
          { type := "multivariate_linear_regression"
            coefficients := coeffsOf (fitCoeffs entries)
            n_training_rows := entries.length
            r2 := (if ssTot entries > 0 then
                some (1 - ssRes entries / ssTot entries) else none).map round4 }
        notes := [] } := by
  unfold predictCore
  rw [if_neg (by omega)]
  rfl

/-- The mean-fallback branch, explicitly. -/
theorem predictCore_of_small (inp : PredictIn) (entries : List Entry)
    (h : entries.length < 3) (hne : entries ≠ []) :
    predictCore inp entries =
      { predicted_score := round2 (meanQ (targets entries))
        model := baseModel entries
        notes := [noteInsufficient] } := by
  unfold predictCore
  rw [if_pos h, if_pos hne]

/-! ## Sums of squares -/

/-- A list of squared deviations sums to zero exactly when every element
equals the reference point. -/
theorem sum_sq_eq_zero_iff (l : List ℚ) (m : ℚ) :
    ((l.map (fun s => (s - m) ^ 2)).sum = 0) ↔ ∀ s ∈ l, s = m := by
  induction l with
  | nil => simp
  | cons a t ih =>
    simp only [List.map_cons, List.sum_cons, List.mem_cons]
    have h1 : (0 : ℚ) ≤ (a - m) ^ 2 := sq_nonneg _
    have h2 : (0 : ℚ) ≤ (t.map (fun s => (s - m) ^ 2)).sum := by
      apply List.sum_nonneg
      intro x hx
      obtain ⟨s, _, rfl⟩ := List.mem_map.mp hx
      exact sq_nonneg _
    constructor
    · intro h0
      have ha : (a - m) ^ 2 = 0 := by linarith
      have hts : (t.map (fun s => (s - m) ^ 2)).sum = 0 := by linarith
      have ham : a = m := by
        have := (pow_eq_zero_iff two_ne_zero).mp ha
        linarith [sub_eq_zero.mp this]
      rintro s (rfl | hs)
      · exact ham
      · exact ih.mp hts s hs
    · intro hall
      have ha : (a - m) ^ 2 = 0 := by
        rw [sub_eq_zero.mpr (hall a (Or.inl rfl))]
        ring
      have hts : (t.map (fun s => (s - m) ^ 2)).sum = 0 :=
        ih.mpr (fun s hs => hall s (Or.inr hs))
      rw [ha, hts, add_zero]

/-- The total sum of squares is nonnegative. -/
theorem ssTot_nonneg (entries : List Entry) : 0 ≤ ssTot entries := by
  unfold ssTot
  apply List.sum_nonneg
  intro x hx
  obtain ⟨s, _, rfl⟩ := List.mem_map.mp hx
  exact sq_nonneg _

/-- The total sum of squares vanishes exactly when all training scores
equal their mean — that is, when the scores are all identical. -/
theorem ssTot_eq_zero_iff (entries : List Entry) :
    ssTot entries = 0 ↔ ∀ e ∈ entries, e.score = meanQ (targets entries) := by
  unfold ssTot
  rw [sum_sq_eq_zero_iff]
  constructor
  · intro h e he
    exact h e.score (by simp [targets]; exact ⟨e, he, rfl⟩)
  · intro h s hs
    simp only [targets, List.mem_map] at hs
    obtain ⟨e, he, rfl⟩ := hs
    exact h e he

/-! ## Solver sanity checks -/

/-- On a full-rank consistent 4×4 system the solver recovers the exact
coefficient vector. -/
theorem lstsq_exact_full_rank :
    lstsq [[1, 2, 1, 1], [1, 1, 2, 1], [1, 1, 1, 2], [1, 2, 2, 2]]
      [12, 13, 14, 19] = [1, 2, 3, 4] := by
  with_unfolding_all rfl

/-- On a rank-one design (three identical constant rows) the solver returns
the minimum-norm solution: all weight on the intercept. -/
theorem lstsq_min_norm_rank_deficient :
    lstsq [[1, 0, 0, 0], [1, 0, 0, 0], [1, 0, 0, 0]] [2, 2, 2] =
      [2, 0, 0, 0] := by
  with_unfolding_all rfl

/-- End-to-end regression check: four rows with a full-rank design matrix
whose scores come from the exact affine function `1 + 2a + 3b + 4c` give a
perfect fit — the unique coefficients are recovered, the linear form is
reproduced at a new input, and `r2 = 1`. -/
theorem perfect_fit_end_to_end :
    (predictCore ⟨1, 1, 1⟩
        [⟨2, 1, 1, 12⟩, ⟨1, 2, 1, 13⟩, ⟨1, 1, 2, 14⟩, ⟨2, 2, 2, 19⟩]).predicted_score = 10 ∧
    (predictCore ⟨1, 1, 1⟩
        [⟨2, 1, 1, 12⟩, ⟨1, 2, 1, 13⟩, ⟨1, 1, 2, 14⟩, ⟨2, 2, 2, 19⟩]).model.coefficients =
      ⟨1, 2, 3, 4⟩ ∧
    (predictCore ⟨1, 1, 1⟩
        [⟨2, 1, 1, 12⟩, ⟨1, 2, 1, 13⟩, ⟨1, 1, 2, 14⟩, ⟨2, 2, 2, 19⟩]).model.r2 = some 1 := by
  refine ⟨?_, ?_, ?_⟩
  · with_unfolding_all rfl
  · with_unfolding_all rfl
  · with_unfolding_all rfl

/-! ## The claims -/

/-- C1: for every history with at least 3 observations, `predict` fits the
linear model `score ~ intercept + b1*avg_glucose + b2*glucose_sd +
b3*difficulty` over the full history with the (total, minimum-norm)
least-squares solver, and its `predicted_score` is that linear form
evaluated at the new input, rounded to 2 decimal places; the fitted
coefficients are reported in the model. -/
theorem C1_regression_fit (inp : PredictIn) (entries : List Entry)
    (h : 3 ≤ entries.length) :
    (predictCore inp entries).predicted_score =
      round2 (evalLinear (lstsq (designMatrix entries) (targets entries)) inp) ∧
    (predictCore inp entries).model.coefficients =
      coeffsOf (lstsq (designMatrix entries) (targets entries)) := by
  rw [predictCore_of_three_le inp entries h]
  exact ⟨rfl, rfl⟩

/-- Witness for C1 at a concrete three-row history. -/
theorem C1_regression_fit_witness :
    (predictCore ⟨1, 1, 1⟩ [⟨2, 1, 1, 12⟩, ⟨1, 2, 1, 13⟩, ⟨1, 1, 2, 14⟩]).predicted_score =
      round2 (evalLinear
        (lstsq (designMatrix [⟨2, 1, 1, 12⟩, ⟨1, 2, 1, 13⟩, ⟨1, 1, 2, 14⟩])
          (targets [⟨2, 1, 1, 12⟩, ⟨1, 2, 1, 13⟩, ⟨1, 1, 2, 14⟩])) ⟨1, 1, 1⟩) ∧
    (predictCore ⟨1, 1, 1⟩ [⟨2, 1, 1, 12⟩, ⟨1, 2, 1, 13⟩, ⟨1, 1, 2, 14⟩]).model.coefficients =
      coeffsOf (lstsq (designMatrix [⟨2, 1, 1, 12⟩, ⟨1, 2, 1, 13⟩, ⟨1, 1, 2, 14⟩])
        (targets [⟨2, 1, 1, 12⟩, ⟨1, 2, 1, 13⟩, ⟨1, 1, 2, 14⟩])) :=
  C1_regression_fit ⟨1, 1, 1⟩ [⟨2, 1, 1, 12⟩, ⟨1, 2, 1, 13⟩, ⟨1, 1, 2, 14⟩] (by decide)

/-- C2: for a history of size 1 or 2, the predicted score is the rounded
arithmetic mean of the stored scores, and the result does not depend on the
new input's predictor values. -/
theorem C2_mean_fallback (inp inp2 : PredictIn) (entries : List Entry)
    (h1 : 1 ≤ entries.length) (h2 : entries.length ≤ 2) :
    (predictCore inp entries).predicted_score = round2 (meanQ (targets entries)) ∧
    predictCore inp entries = predictCore inp2 entries := by
  have h3 : entries.length < 3 := by omega
  have hne : entries ≠ [] := by
    intro hc
    rw [hc] at h1
    simp at h1
  rw [predictCore_of_small inp entries h3 hne, predictCore_of_small inp2 entries h3 hne]
  exact ⟨rfl, rfl⟩

/-- Witness for C2 at a concrete one-row history. -/
theorem C2_mean_fallback_witness :
    (predictCore ⟨1, 1, 1⟩ [⟨2, 1, 1, 12⟩]).predicted_score =
      round2 (meanQ (targets [⟨2, 1, 1, 12⟩])) ∧
    predictCore ⟨1, 1, 1⟩ [⟨2, 1, 1, 12⟩] = predictCore ⟨5, 4, 3⟩ [⟨2, 1, 1, 12⟩] :=
  C2_mean_fallback ⟨1, 1, 1⟩ ⟨5, 4, 3⟩ [⟨2, 1, 1, 12⟩] (by decide) (by decide)

/-- C6: on the empty history `predict` returns a predicted score of 0.0,
reports 0 training rows, and emits a non-empty notes list containing the
advisory that no data exists yet (`noteNoData`, the "No data yet" message
of the source). -/
theorem C6_empty_history (inp : PredictIn) :
    (predictCore inp []).predicted_score = 0 ∧
    (predictCore inp []).model.n_training_rows = 0 ∧
    (predictCore inp []).notes = [noteNoData] ∧
    (predictCore inp []).notes ≠ [] := by
  refine ⟨?_, rfl, rfl, ?_⟩
  · with_unfolding_all rfl
  · rw [show (predictCore inp []).notes = [noteNoData] from rfl]
    exact List.cons_ne_nil _ _

/-- C8: the prediction engine is deterministic — two calls with the same
parsed input and the same history snapshot return identical results. -/
theorem C8_deterministic (inp1 inp2 : PredictIn) (h1 h2 : List Entry)
    (hi : inp1 = inp2) (hh : h1 = h2) :
    predictCore inp1 h1 = predictCore inp2 h2 := by
  rw [hi, hh]

/-- Witness for C8 at concrete equal inputs. -/
theorem C8_deterministic_witness :
    predictCore ⟨1, 1, 1⟩ [⟨2, 1, 1, 12⟩] = predictCore ⟨1, 1, 1⟩ [⟨2, 1, 1, 12⟩] :=
  C8_deterministic ⟨1, 1, 1⟩ ⟨1, 1, 1⟩ [⟨2, 1, 1, 12⟩] [⟨2, 1, 1, 12⟩] rfl rfl

/-- C9: in the regression regime (at least 3 observations) the notes list
is empty. -/
theorem C9_no_notes_regression (inp : PredictIn) (entries : List Entry)
    (h : 3 ≤ entries.length) :
    (predictCore inp entries).notes = [] := by
  rw [predictCore_of_three_le inp entries h]

/-- Witness for C9 at a concrete three-row history. -/
theorem C9_no_notes_regression_witness :
    (predictCore ⟨1, 1, 1⟩ [⟨2, 1, 1, 12⟩, ⟨1, 2, 1, 13⟩, ⟨1, 1, 2, 14⟩]).notes = [] :=
  C9_no_notes_regression ⟨1, 1, 1⟩ [⟨2, 1, 1, 12⟩, ⟨1, 2, 1, 13⟩, ⟨1, 1, 2, 14⟩] (by decide)

/-- C10: a failed validation of an entry-append request leaves the store
untouched and returns the error mapping — no row is inserted. -/
theorem C10_no_insert_on_invalid (st : Store) (t : ℕ) (d : RawEntryData)
    (h : (validate_entry d).1 ≠ []) :
    (add_entry st t d).1 = st ∧
    (add_entry st t d).2 = Except.error (validate_entry d).1 := by
  unfold add_entry
  rw [if_pos h]
  exact ⟨rfl, rfl⟩

/-- Witness for C10 at a concrete invalid payload (all fields missing). -/
theorem C10_no_insert_on_invalid_witness :
    (add_entry ⟨0, []⟩ 7 ⟨none, none, none, none⟩).1 = ⟨0, []⟩ ∧
    (add_entry ⟨0, []⟩ 7 ⟨none, none, none, none⟩).2 =
      Except.error (validate_entry ⟨none, none, none, none⟩).1 :=
  C10_no_insert_on_invalid ⟨0, []⟩ 7 ⟨none, none, none, none⟩ (by decide)

/-- C3: for every history with at least 3 observations, `model.r2` is null
exactly when the total sum of squares of the training scores around their
mean is zero — equivalently, when all training scores are identical (equal
to their mean) — and no exception occurs; otherwise it is
`1 - RSS/TSS` rounded to 4 decimal places. -/
theorem C3_r2_null_iff_degenerate (inp : PredictIn) (entries : List Entry)
    (h : 3 ≤ entries.length) :
    ((predictCore inp entries).model.r2 = none ↔ ssTot entries = 0) ∧
    (ssTot entries = 0 ↔ ∀ e ∈ entries, e.score = meanQ (targets entries)) ∧
    (ssTot entries ≠ 0 →
      (predictCore inp entries).model.r2 =
        some (round4 (1 - ssRes entries / ssTot entries))) := by
  rw [predictCore_of_three_le inp entries h]
  refine ⟨?_, ssTot_eq_zero_iff entries, ?_⟩
  · by_cases hpos : ssTot entries > 0
    · rw [if_pos hpos]
      simp only [Option.map_some]
      exact ⟨fun hc => Option.noConfusion hc, fun hc => absurd hc (ne_of_gt hpos)⟩
    · have h0 : ssTot entries = 0 := le_antisymm (not_lt.mp hpos) (ssTot_nonneg entries)
      rw [if_neg hpos]
      simp [h0]
  · intro hne
    have hpos : ssTot entries > 0 := lt_of_le_of_ne (ssTot_nonneg entries) (Ne.symm hne)
    rw [if_pos hpos]
    rfl

/-- Witness for C3 at a concrete three-row history. -/
theorem C3_r2_null_iff_degenerate_witness :
    ((predictCore ⟨1, 1, 1⟩ [⟨2, 1, 1, 12⟩, ⟨1, 2, 1, 13⟩, ⟨1, 1, 2, 14⟩]).model.r2 = none ↔
      ssTot [⟨2, 1, 1, 12⟩, ⟨1, 2, 1, 13⟩, ⟨1, 1, 2, 14⟩] = 0) ∧
    (ssTot [⟨2, 1, 1, 12⟩, ⟨1, 2, 1, 13⟩, ⟨1, 1, 2, 14⟩] = 0 ↔
      ∀ e ∈ [(⟨2, 1, 1, 12⟩ : Entry), ⟨1, 2, 1, 13⟩, ⟨1, 1, 2, 14⟩],
        e.score = meanQ (targets [⟨2, 1, 1, 12⟩, ⟨1, 2, 1, 13⟩, ⟨1, 1, 2, 14⟩])) ∧
    (ssTot [⟨2, 1, 1, 12⟩, ⟨1, 2, 1, 13⟩, ⟨1, 1, 2, 14⟩] ≠ 0 →
      (predictCore ⟨1, 1, 1⟩ [⟨2, 1, 1, 12⟩, ⟨1, 2, 1, 13⟩, ⟨1, 1, 2, 14⟩]).model.r2 =
        some (round4 (1 - ssRes [⟨2, 1, 1, 12⟩, ⟨1, 2, 1, 13⟩, ⟨1, 1, 2, 14⟩] /
          ssTot [⟨2, 1, 1, 12⟩, ⟨1, 2, 1, 13⟩, ⟨1, 1, 2, 14⟩]))) :=
  C3_r2_null_iff_degenerate ⟨1, 1, 1⟩ [⟨2, 1, 1, 12⟩, ⟨1, 2, 1, 13⟩, ⟨1, 1, 2, 14⟩] (by decide)

/-- C4: for a history of exactly 3 observations with linearly independent
predictor rows (nonzero determinant of the 3×3 predictor matrix), the model
carries the fitted least-squares coefficients in all four slots and its
type tag is the fitted-regression tag. -/
theorem C4_three_rows_fitted (inp : PredictIn) (e1 e2 e3 : Entry)
    (h : det3 (predRow e1) (predRow e2) (predRow e3) ≠ 0) :
    (predictCore inp [e1, e2, e3]).model.coefficients =
      coeffsOf (lstsq (designMatrix [e1, e2, e3]) (targets [e1, e2, e3])) ∧
    (predictCore inp [e1, e2, e3]).model.type = "multivariate_linear_regression" := by
  rw [predictCore_of_three_le inp [e1, e2, e3] (by simp)]
  exact ⟨rfl, rfl⟩

/-- Witness for C4 at three rows with predictor determinant 4. -/
theorem C4_three_rows_fitted_witness :
    (predictCore ⟨1, 1, 1⟩ [⟨2, 1, 1, 12⟩, ⟨1, 2, 1, 13⟩, ⟨1, 1, 2, 14⟩]).model.coefficients =
      coeffsOf (lstsq (designMatrix [⟨2, 1, 1, 12⟩, ⟨1, 2, 1, 13⟩, ⟨1, 1, 2, 14⟩])
        (targets [⟨2, 1, 1, 12⟩, ⟨1, 2, 1, 13⟩, ⟨1, 1, 2, 14⟩])) ∧
    (predictCore ⟨1, 1, 1⟩ [⟨2, 1, 1, 12⟩, ⟨1, 2, 1, 13⟩, ⟨1, 1, 2, 14⟩]).model.type =
      "multivariate_linear_regression" :=
  C4_three_rows_fitted ⟨1, 1, 1⟩ ⟨2, 1, 1, 12⟩ ⟨1, 2, 1, 13⟩ ⟨1, 1, 2, 14⟩
    (by with_unfolding_all decide)

/-- A field reported in `violationsOf` gets the range message in the
corresponding `checkRange` error list. -/
theorem violationsOf_reported (name m1 m2 : String) (bad : ℚ → Prop)
    [DecidablePred bad] (v : Option ℚ) (f : String)
    (hf : f ∈ violationsOf name bad v) :
    (f, m2) ∈ (checkRange name m1 m2 bad v).1 := by
  cases v with
  | none => simp [violationsOf] at hf
  | some x =>
    by_cases hb : bad x
    · simp only [violationsOf, if_pos hb, List.mem_singleton] at hf
      subst hf
      simp [checkRange, if_pos hb]
    · simp [violationsOf, if_neg hb] at hf

/-- Every range violation of an entry payload is reported in the
`validate_entry` error mapping. -/
theorem entry_violation_reported (d : RawEntryData) (f : String)
    (hf : f ∈ entryRangeViolations d) :
    ∃ msg, (f, msg) ∈ (validate_entry d).1 := by
  simp only [entryRangeViolations, List.append_assoc, List.mem_append] at hf
  simp only [validate_entry, List.append_assoc, List.mem_append]
  rcases hf with h | h | h | h
  · exact ⟨_, Or.inl (violationsOf_reported _ _ _ _ d.avg_glucose f h)⟩
  · exact ⟨_, Or.inr (Or.inl (violationsOf_reported _ _ _ _ d.glucose_sd f h))⟩
  · exact ⟨_, Or.inr (Or.inr (Or.inl (violationsOf_reported _ _ _ _ d.difficulty f h)))⟩
  · exact ⟨_, Or.inr (Or.inr (Or.inr (violationsOf_reported _ _ _ _ d.score f h)))⟩

/-- Every range violation of a predictor payload is reported in the
`validate_predict` error mapping. -/
theorem predict_violation_reported (d : RawPredictData) (f : String)
    (hf : f ∈ predictRangeViolations d) :
    ∃ msg, (f, msg) ∈ (validate_predict d).1 := by
  simp only [predictRangeViolations, List.append_assoc, List.mem_append] at hf
  simp only [validate_predict, List.append_assoc, List.mem_append]
  rcases hf with h | h | h
  · exact ⟨_, Or.inl (violationsOf_reported _ _ _ _ d.avg_glucose f h)⟩
  · exact ⟨_, Or.inr (Or.inl (violationsOf_reported _ _ _ _ d.glucose_sd f h))⟩
  · exact ⟨_, Or.inr (Or.inr (violationsOf_reported _ _ _ _ d.difficulty f h))⟩

/-- A range-violating entry payload fails validation. -/
theorem entry_errors_ne_nil (d : RawEntryData)
    (h : entryRangeViolations d ≠ []) : (validate_entry d).1 ≠ [] := by
  obtain ⟨f, hf⟩ := List.exists_mem_of_ne_nil _ h
  obtain ⟨msg, hm⟩ := entry_violation_reported d f hf
  exact List.ne_nil_of_mem hm

/-- A range-violating predictor payload fails validation. -/
theorem predict_errors_ne_nil (d : RawPredictData)
    (h : predictRangeViolations d ≠ []) : (validate_predict d).1 ≠ [] := by
  obtain ⟨f, hf⟩ := List.exists_mem_of_ne_nil _ h
  obtain ⟨msg, hm⟩ := predict_violation_reported d f hf
  exact List.ne_nil_of_mem hm

/-- C7: a request whose supplied fields violate the range constraints
(avg_glucose > 0, glucose_sd >= 0, 1 <= difficulty <= 10, 0 <= score <= 100
for stored observations) is rejected before the store-append or prediction
path runs: the store is unchanged, the response is the error mapping with a
message per violated field, and the core is never invoked. -/
theorem C7_validation_boundary (d : RawEntryData) (p : RawPredictData)
    (st : Store) (t : ℕ)
    (hd : entryRangeViolations d ≠ []) (hp : predictRangeViolations p ≠ []) :
    (add_entry st t d).1 = st ∧
    (add_entry st t d).2 = Except.error (validate_entry d).1 ∧
    (∀ f ∈ entryRangeViolations d, ∃ msg, (f, msg) ∈ (validate_entry d).1) ∧
    predict st p = Except.error (validate_predict p).1 ∧
    (∀ f ∈ predictRangeViolations p, ∃ msg, (f, msg) ∈ (validate_predict p).1) := by
  have hd' := entry_errors_ne_nil d hd
  have hp' := predict_errors_ne_nil p hp
  refine ⟨?_, ?_, entry_violation_reported d, ?_, predict_violation_reported p⟩
  · unfold add_entry
    rw [if_pos hd']
  · unfold add_entry
    rw [if_pos hd']
  · unfold predict
    rw [if_pos hp']

/-- Witness for C7: an entry payload violating all four ranges and a
predictor payload violating two. -/
theorem C7_validation_boundary_witness :
    (add_entry ⟨0, []⟩ 7 ⟨some 0, some (-1), some 0, some 101⟩).1 = ⟨0, []⟩ ∧
    (add_entry ⟨0, []⟩ 7 ⟨some 0, some (-1), some 0, some 101⟩).2 =
      Except.error (validate_entry ⟨some 0, some (-1), some 0, some 101⟩).1 ∧
    (∀ f ∈ entryRangeViolations ⟨some 0, some (-1), some 0, some 101⟩,
      ∃ msg, (f, msg) ∈ (validate_entry ⟨some 0, some (-1), some 0, some 101⟩).1) ∧
    predict ⟨0, []⟩ ⟨some 0, some 1, some 11⟩ =
      Except.error (validate_predict ⟨some 0, some 1, some 11⟩).1 ∧
    (∀ f ∈ predictRangeViolations ⟨some 0, some 1, some 11⟩,
      ∃ msg, (f, msg) ∈ (validate_predict ⟨some 0, some 1, some 11⟩).1) :=
  C7_validation_boundary ⟨some 0, some (-1), some 0, some 101⟩ ⟨some 0, some 1, some 11⟩
    ⟨0, []⟩ 7 (by with_unfolding_all decide) (by with_unfolding_all decide)

/-- C5: appending O1 then O2 (timestamps nondecreasing, possibly equal)
into a well-formed store yields a snapshot ordered by creation time then
sequence number that lists every old row first, then O1, then O2 — so O1
precedes O2 even on a shared timestamp — and a predict call issued after
the appends sees the updated observation count. -/
theorem C5_append_snapshot_order (st : Store) (t1 t2 : ℕ)
    (d1 d2 : RawEntryData) (inp : PredictIn)
    (hsort : List.Sorted storedLE st.rows)
    (hwf : ∀ r ∈ st.rows, r.id < st.next_id ∧ r.created_at ≤ t1)
    (h12 : t1 ≤ t2)
    (hv1 : (validate_entry d1).1 = [])
    (hv2 : (validate_entry d2).1 = []) :
    fetch_entries (add_entry (add_entry st t1 d1).1 t2 d2).1 =
      st.rows ++ [⟨st.next_id, t1, parsedEntry (validate_entry d1).2⟩,
        ⟨st.next_id + 1, t2, parsedEntry (validate_entry d2).2⟩] ∧
    (predictCore inp
        (snapshotEntries (add_entry (add_entry st t1 d1).1 t2 d2).1)).model.n_training_rows =
      st.rows.length + 2 := by
  have hne1 : ¬(validate_entry d1).1 ≠ [] := by simp [hv1]
  have hne2 : ¬(validate_entry d2).1 ≠ [] := by simp [hv2]
  have hstep : (add_entry (add_entry st t1 d1).1 t2 d2).1 =
      ⟨st.next_id + 1 + 1,
        st.rows ++ [⟨st.next_id, t1, parsedEntry (validate_entry d1).2⟩,
          ⟨st.next_id + 1, t2, parsedEntry (validate_entry d2).2⟩]⟩ := by
    unfold add_entry
    rw [if_neg hne1, if_neg hne2]
    simp [List.append_assoc]
  have hsorted2 : List.Sorted storedLE
      (st.rows ++ [⟨st.next_id, t1, parsedEntry (validate_entry d1).2⟩,
        ⟨st.next_id + 1, t2, parsedEntry (validate_entry d2).2⟩]) := by
    rw [List.Sorted, List.pairwise_append]
    refine ⟨hsort, ?_, ?_⟩
    · constructor
      · intro b hb
        rw [List.mem_singleton] at hb
        subst hb
        rcases lt_or_eq_of_le h12 with hlt | heq
        · exact Or.inl hlt
        · exact Or.inr ⟨heq, by show st.next_id ≤ st.next_id + 1; omega⟩
      · simp
    · intro a ha b hb
      obtain ⟨hid, htime⟩ := hwf a ha
      rcases List.mem_cons.mp hb with rfl | hb2
      · rcases lt_or_eq_of_le htime with hlt | heq
        · exact Or.inl hlt
        · exact Or.inr ⟨heq, by show a.id ≤ st.next_id; omega⟩
      · rw [List.mem_singleton] at hb2
        subst hb2
        rcases lt_or_eq_of_le (le_trans htime h12) with hlt | heq
        · exact Or.inl hlt
        · exact Or.inr ⟨heq, by show a.id ≤ st.next_id + 1; omega⟩
  constructor
  · rw [hstep]
    exact hsorted2.insertionSort_eq
  · rw [hstep, predictCore_n_training]
    unfold snapshotEntries fetch_entries
    rw [List.length_map, List.length_insertionSort]
    simp

/-- Witness for C5: two appends with a shared timestamp into the empty
store. -/
theorem C5_append_snapshot_order_witness :
    fetch_entries (add_entry (add_entry ⟨0, []⟩ 7 ⟨some 2, some 1, some 1, some 12⟩).1 7
        ⟨some 3, some 1, some 2, some 14⟩).1 =
      ([] : List StoredEntry) ++
        [⟨0, 7, parsedEntry (validate_entry ⟨some 2, some 1, some 1, some 12⟩).2⟩,
          ⟨0 + 1, 7, parsedEntry (validate_entry ⟨some 3, some 1, some 2, some 14⟩).2⟩] ∧
    (predictCore ⟨1, 1, 1⟩
        (snapshotEntries (add_entry (add_entry ⟨0, []⟩ 7 ⟨some 2, some 1, some 1, some 12⟩).1 7
          ⟨some 3, some 1, some 2, some 14⟩).1)).model.n_training_rows =
      ([] : List StoredEntry).length + 2 :=
  C5_append_snapshot_order ⟨0, []⟩ 7 7 ⟨some 2, some 1, some 1, some 12⟩
    ⟨some 3, some 1, some 2, some 14⟩ ⟨1, 1, 1⟩ (by simp) (by simp) (le_refl 7)
    (by with_unfolding_all rfl) (by with_unfolding_all rfl)
